import Mathlib

/-!
Verification development for the gatekeeper subsystem of the TMW bot
(`cogs/gatekeeper.py`): quiz-result verification, weekly cooldown
arithmetic, rank reward and composite-rank unlocking, workspace-thread
resolution and the idle-thread sweep.

Conventions of the shallow embedding:
* UTC instants are modelled as whole seconds since the Unix epoch
  (`Nat`; 1970-01-01 00:00:00 UTC was a Thursday, Python `weekday() = 3`).
  Sub-second parts of timestamps are irrelevant to every property proved
  here (day truncation and day-granularity comparisons only).
* Python values tested for truthiness (optional config fields such as
  `font`, `deck_range`, `rank_to_get`, `require_role`) are modelled as
  `Option`, with `none` standing for a falsy value (`None`, `0`, `""`,
  `[]`) and `some` for a truthy one.
* A Python dict access that can raise (`KeyError`, `IndexError`) is
  modelled with `Option`; a function that can raise an uncaught
  exception returns `Option`/`Except` or records a `pyError` effect.
* Side effects (database statements, role mutations, Discord messages)
  are recorded as an explicit effect trace next to an explicit state.
-/

namespace Gatekeeper

/-! ## Time arithmetic (`get_next_sunday_midnight_from`, cooldown checks) -/

/-- Seconds in one day. -/
def secondsPerDay : Nat := 86400

/-- Python `datetime.weekday()` for a UTC instant given in seconds since
the epoch: Monday = 0, ..., Sunday = 6.  The epoch day was a Thursday. -/
def weekday (t : Nat) : Nat := (t / 86400 + 3) % 7

/-- Embedding of `get_next_sunday_midnight_from` (gatekeeper.py:187-193):
`days_until_sunday = (6 - dt.weekday()) % 7`, replaced by `7` when `0`,
then add that many days and truncate to midnight of the resulting day. -/
def get_next_sunday_midnight_from (t : Nat) : Nat :=
  let days_until_sunday := (6 - weekday t) % 7
  let days_until_sunday := if days_until_sunday = 0 then 7 else days_until_sunday
  ((t + days_until_sunday * 86400) / 86400) * 86400

/-- Embedding of `LevelUp.is_on_cooldown` / `is_on_cooldown_create`
(gatekeeper.py:395-409, 656-671), reduced to its decision: if the rank
has no cooldown or there is no recorded attempt the user is free;
otherwise the user is on cooldown exactly while `now` is before the next
Sunday midnight after the last attempt.  (The message sending these
methods also perform is outside the decision.) -/
def is_on_cooldown (rank_has_cooldown : Bool) (last_attempt : Option Nat) (now : Nat) : Bool :=
  if !rank_has_cooldown then false
  else
    match last_attempt with
    | none => false
    | some t => decide (now < get_next_sunday_midnight_from t)

/-- Embedding of `LevelUp.get_next_attempt_time` (gatekeeper.py:481-490),
reduced to its arithmetic content: the returned Unix timestamp is the
last attempt's timestamp plus `timedelta(days=6)`. -/
def get_next_attempt_time_from (t : Nat) : Nat := t + 6 * 86400

/-- A value `s` is a Sunday-midnight instant: it lies on a day boundary
and the day it opens is a Sunday. -/
def isSundayMidnight (s : Nat) : Prop := s % 86400 = 0 ∧ weekday s = 6

instance (s : Nat) : Decidable (isSundayMidnight s) := by
  unfold isSundayMidnight; infer_instance

/-! ## Data model: rank definitions and quiz reports -/

/-- Embedding of the per-rank configuration record consumed by the cog
(the fields of `quiz_data` accessed in gatekeeper.py).  Fields that the
code tests for truthiness are `Option` (`none` = falsy). -/
structure QuizData where
  name : String
  score_limit : Int
  time_limit : Int
  font : Option String
  font_size : Option Int
  max_missed : Int
  foreground : Option String
  effect : Option String
  deck_range : Option (Int × Int)
  rank_to_get : Option Nat
  require_role : Option Nat
  no_timeout : Bool
  combination_rank : Bool
  quizzes_required : List String
  deck_names : Option (List String)
  command : Option String
deriving Repr, DecidableEq

/-- The settings block of a Kotoba quiz report (`quiz_result["settings"]`). -/
structure QuizSettings where
  shuffle : Bool
  fontColor : String
  effect : String
  scoreLimit : Int
  answerTimeLimitInMs : Int
  font : String
  fontSize : Int
deriving Repr, DecidableEq

/-- One deck entry of a quiz report.  `startIndex`/`endIndex` are `none`
when the key is absent (Python `KeyError` on subscript access); a present
value of `0` is falsy for the truthiness tests of the no-range branch. -/
structure Deck where
  shortName : Option String
  mc : Bool
  startIndex : Option Int
  endIndex : Option Int
deriving Repr, DecidableEq

/-- A quiz report (`quiz_result`): participant ids, settings, loaded
flag, decks, number of question entries, and the per-participant scores
(`quiz_result["scores"][i]["score"]`). -/
structure QuizResult where
  participants : List Nat
  settings : QuizSettings
  isLoaded : Bool
  decks : List Deck
  questions : Nat
  scores : List Int
deriving Repr, DecidableEq

/-! ## `verify_quiz_settings` (gatekeeper.py:69-153) -/

def reason_participants : String := "Quiz failed due to multiple people participating."
def reason_shuffle : String := "Quiz failed due to the shuffle setting being activated."
def reason_loaded : String := "Quiz failed due to being loaded."
def reason_mc : String := "Quiz failed due to being set to multiple choice."
def reason_wrong_start : String := "Quiz failed due to having the wrong start index."
def reason_wrong_end : String := "Quiz failed due to having the wrong end index."
def reason_no_index : String := "Quiz failed due to not having an index specified."
def reason_has_start : String := "Quiz failed due to having a start index."
def reason_has_end : String := "Quiz failed due to having an end index."
def reason_color : String := "Foreground color does not match required color."
def reason_effect : String := "Effect does not match required effect."
def reason_score_limit : String := "Set score limit and required score limit don't match."
def reason_time_limit : String := "Set answer time does match required answer time."
def reason_font : String := "Set font does not match required font."
def reason_font_size : String := "Set font size does not match required font size."

def reason_missed (score answer_count : Int) : String :=
  "Failed too many questions. Score: " ++ toString score ++ " out of " ++ toString answer_count ++ "."

def reason_not_enough (score answer_count : Int) : String :=
  "Not enough questions answered. Score: " ++ toString score ++ " out of " ++ toString answer_count ++ "."

def success_message (mention : String) (quiz_data : QuizData) : String :=
  mention ++ " has passed the " ++ quiz_data.name ++ " quiz!"

/-- Per-deck body of the range-specified index loop
(gatekeeper.py:103-110): a `KeyError` on either subscript yields the
no-index reason; otherwise mismatching start, then end, indices fail. -/
def deck_index_check_specified (s e : Int) (d : Deck) : Option String :=
  match d.startIndex with
  | none => some reason_no_index
  | some si =>
    if si ≠ s then some reason_wrong_start
    else
      match d.endIndex with
      | none => some reason_no_index
      | some ei => if ei ≠ e then some reason_wrong_end else none

/-- End-index half of the no-range branch (gatekeeper.py:118-122):
a missing key passes, a truthy (non-zero) value fails. -/
def deck_end_check_unspecified (d : Deck) : Option String :=
  match d.endIndex with
  | some ei => if ei ≠ 0 then some reason_has_end else none
  | none => none

/-- Per-deck body of the no-range index loop (gatekeeper.py:112-122). -/
def deck_index_check_unspecified (d : Deck) : Option String :=
  match d.startIndex with
  | some si => if si ≠ 0 then some reason_has_start else deck_end_check_unspecified d
  | none => deck_end_check_unspecified d

/-- First failure of a per-deck check over the report's decks, mirroring
the early `return` inside the Python `for` loops. -/
def first_deck_failure (f : Deck → Option String) : List Deck → Option String
  | [] => none
  | d :: ds =>
    match f d with
    | some r => some r
    | none => first_deck_failure f ds

/-- The multiple-choice deck loop (gatekeeper.py:98-100). -/
def check_mc (quiz_result : QuizResult) : Option String :=
  first_deck_failure (fun d => if d.mc then some reason_mc else none) quiz_result.decks

/-- The index-range policy (gatekeeper.py:80-84, 102-122): with a
configured `deck_range` every deck must carry exactly those indices;
without one no deck may carry a truthy index. -/
def check_index (quiz_data : QuizData) (quiz_result : QuizResult) : Option String :=
  match quiz_data.deck_range with
  | some (s, e) => first_deck_failure (deck_index_check_specified s e) quiz_result.decks
  | none => first_deck_failure deck_index_check_unspecified quiz_result.decks

/-- Foreground color constraint (gatekeeper.py:124-126). -/
def check_color (quiz_data : QuizData) (quiz_result : QuizResult) : Option String :=
  match quiz_data.foreground with
  | some c => if quiz_result.settings.fontColor ≠ c then some reason_color else none
  | none => none

/-- Effect constraint (gatekeeper.py:128-130). -/
def check_effect (quiz_data : QuizData) (quiz_result : QuizResult) : Option String :=
  match quiz_data.effect with
  | some ef => if quiz_result.settings.effect ≠ ef then some reason_effect else none
  | none => none

/-- Score-limit equality (gatekeeper.py:132-133). -/
def check_score_limit (quiz_data : QuizData) (quiz_result : QuizResult) : Option String :=
  if quiz_data.score_limit ≠ quiz_result.settings.scoreLimit then some reason_score_limit else none

/-- Answer-time-limit ceiling (gatekeeper.py:135-136). -/
def check_time_limit (quiz_data : QuizData) (quiz_result : QuizResult) : Option String :=
  if quiz_data.time_limit < quiz_result.settings.answerTimeLimitInMs then some reason_time_limit
  else none

/-- Font constraint (gatekeeper.py:138-139). -/
def check_font (quiz_data : QuizData) (quiz_result : QuizResult) : Option String :=
  match quiz_data.font with
  | some f => if f ≠ quiz_result.settings.font then some reason_font else none
  | none => none

/-- Font-size constraint (gatekeeper.py:141-142). -/
def check_font_size (quiz_data : QuizData) (quiz_result : QuizResult) : Option String :=
  match quiz_data.font_size with
  | some fs => if fs ≠ quiz_result.settings.fontSize then some reason_font_size else none
  | none => none

/-- Embedding of `verify_quiz_settings` (gatekeeper.py:69-153).  The
returned `none` models the uncaught `IndexError` from
`quiz_result["scores"][0]` when the report carries no score entry;
otherwise the result is the Python pair `(ok, reason-or-confirmation)`. -/
def verify_quiz_settings (quiz_data : QuizData) (quiz_result : QuizResult) (mention : String) :
    Option (Bool × String) :=
  let answer_count := quiz_data.score_limit
  if quiz_result.participants.length > 1 then some (false, reason_participants)
  else if quiz_result.settings.shuffle = false then some (false, reason_shuffle)
  else if quiz_result.isLoaded then some (false, reason_loaded)
  else
    match check_mc quiz_result with
    | some r => some (false, r)
    | none =>
      match check_index quiz_data quiz_result with
      | some r => some (false, r)
      | none =>
        match check_color quiz_data quiz_result with
        | some r => some (false, r)
        | none =>
          match check_effect quiz_data quiz_result with
          | some r => some (false, r)
          | none =>
            match check_score_limit quiz_data quiz_result with
            | some r => some (false, r)
            | none =>
              match check_time_limit quiz_data quiz_result with
              | some r => some (false, r)
              | none =>
                match check_font quiz_data quiz_result with
                | some r => some (false, r)
                | none =>
                  match check_font_size quiz_data quiz_result with
                  | some r => some (false, r)
                  | none =>
                    match quiz_result.scores.head? with
                    | none => none
                    | some sc =>
                      if (quiz_result.questions : Int) - sc ≥ quiz_data.max_missed then
                        some (false, reason_missed sc answer_count)
                      else if answer_count ≠ sc then
                        some (false, reason_not_enough sc answer_count)
                      else some (true, success_message mention quiz_data)

/-! ### Spec-side view of the verifier: an ordered list of checks

Modelled from the spec: §4.1 describes `Verify` as a fixed ordered list
of checks evaluated first-failure-wins.  Each check evaluates to
`none` (evaluation raises), `some (some r)` (check fails with reason
`r`) or `some none` (check passes); `run_checks` runs them in order and
short-circuits on the first failure. -/

/-- A single verifier check, spec view. -/
def VCheck : Type := QuizData → QuizResult → Option (Option String)

def vcheck_participants : VCheck := fun _ qr =>
  some (if qr.participants.length > 1 then some reason_participants else none)

def vcheck_shuffle : VCheck := fun _ qr =>
  some (if qr.settings.shuffle = false then some reason_shuffle else none)

def vcheck_loaded : VCheck := fun _ qr =>
  some (if qr.isLoaded then some reason_loaded else none)

def vcheck_mc : VCheck := fun _ qr => some (check_mc qr)

def vcheck_index : VCheck := fun qd qr => some (check_index qd qr)

def vcheck_color : VCheck := fun qd qr => some (check_color qd qr)

def vcheck_effect : VCheck := fun qd qr => some (check_effect qd qr)

def vcheck_score_limit : VCheck := fun qd qr => some (check_score_limit qd qr)

def vcheck_time_limit : VCheck := fun qd qr => some (check_time_limit qd qr)

def vcheck_font : VCheck := fun qd qr => some (check_font qd qr)

def vcheck_font_size : VCheck := fun qd qr => some (check_font_size qd qr)

def vcheck_missed : VCheck := fun qd qr =>
  match qr.scores.head? with
  | none => none
  | some sc =>
    some (if (qr.questions : Int) - sc ≥ qd.max_missed then
            some (reason_missed sc qd.score_limit)
          else none)

def vcheck_exact_score : VCheck := fun qd qr =>
  match qr.scores.head? with
  | none => none
  | some sc => some (if qd.score_limit ≠ sc then some (reason_not_enough sc qd.score_limit) else none)

/-- The spec's fixed check order (§4.1 items 1-12; font and font size
are item 10's two halves). -/
def verifier_checks : List VCheck :=
  [vcheck_participants, vcheck_shuffle, vcheck_loaded, vcheck_mc, vcheck_index,
   vcheck_color, vcheck_effect, vcheck_score_limit, vcheck_time_limit,
   vcheck_font, vcheck_font_size, vcheck_missed, vcheck_exact_score]

/-- Run checks in order, first failure wins; a raising check aborts. -/
def run_checks : List VCheck → QuizData → QuizResult → Option (Option String)
  | [], _, _ => some none
  | c :: cs, qd, qr =>
    match c qd qr with
    | none => none
    | some (some r) => some (some r)
    | some none => run_checks cs qd qr

/-- Interpret the outcome of the check list the way the verifier reports
it: first failure reason, or the canned confirmation on full pass. -/
def interp_check_result (quiz_data : QuizData) (mention : String) :
    Option (Option String) → Option (Bool × String)
  | none => none
  | some (some r) => some (false, r)
  | some none => some (true, success_message mention quiz_data)

/-- The verifier as the spec describes it: the ordered check list,
first-failure-wins. -/
def verify_via_checks (quiz_data : QuizData) (quiz_result : QuizResult) (mention : String) :
    Option (Bool × String) :=
  interp_check_result quiz_data mention (run_checks verifier_checks quiz_data quiz_result)

/-- A report with the shuffle setting turned off. -/
def withShuffleOff (qr : QuizResult) : QuizResult :=
  { qr with settings := { qr.settings with shuffle := false } }

/-! ## Guild, roles, member, persisted tables -/

/-- A Discord role: id, display name and hierarchy position. -/
structure Role where
  id : Nat
  name : String
  position : Int
deriving Repr, DecidableEq

/-- A guild: id plus the role list backing `guild.get_role`. -/
structure Guild where
  id : Nat
  roles : List Role
deriving Repr, DecidableEq

/-- `guild.get_role(rid)`. -/
def Guild.get_role (g : Guild) (rid : Nat) : Option Role :=
  g.roles.find? (fun r => r.id == rid)

/-- A guild member: user id and held roles. -/
structure Member where
  id : Nat
  roles : List Role
deriving Repr, DecidableEq

/-- The three persisted tables created by the cog
(`quiz_attempts`, `passed_quizzes`, `user_threads`). -/
structure DB where
  quiz_attempts : List (Nat × Nat × String × Nat)
  passed_quizzes : List (Nat × Nat × String)
  user_threads : List (Nat × Nat)
deriving Repr, DecidableEq

/-- `ADD_PASSED_QUIZ`: insert, no-op on conflict (idempotent). -/
def addPassedQuizRow (db : DB) (g u : Nat) (q : String) : DB :=
  if db.passed_quizzes.contains (g, u, q) then db
  else { db with passed_quizzes := db.passed_quizzes ++ [(g, u, q)] }

/-- `ADD_QUIZ_ATTEMPT`: append-only insert. -/
def addQuizAttemptRow (db : DB) (g u : Nat) (q : String) (t : Nat) : DB :=
  { db with quiz_attempts := db.quiz_attempts ++ [(g, u, q, t)] }

/-- `GET_PASSED_QUIZZES`: quiz names passed by a user in a guild. -/
def passedQuizNames (db : DB) (g u : Nat) : List String :=
  (db.passed_quizzes.filter (fun r => r.1 == g && r.2.1 == u)).map (fun r => r.2.2)

/-- Embedding of `LevelUp.rank_has_cooldown` (gatekeeper.py:356-360):
look the rank up by name, cooldown means `no_timeout` is false.  (When
no rank matches, Python falls off the function and returns `None`,
which every caller uses as a falsy value.) -/
def rank_has_cooldown (cfg : List QuizData) (rank_name : String) : Bool :=
  match cfg.find? (fun r => r.name == rank_name) with
  | some r => !r.no_timeout
  | none => false

/-- Embedding of `LevelUp.get_all_quiz_roles` (gatekeeper.py:430-432):
for every rank with a truthy reward-role id, the result of
`guild.get_role` (possibly `None`). -/
def get_all_quiz_roles (cfg : List QuizData) (guild : Guild) : List (Option Role) :=
  (cfg.filter (fun r => r.rank_to_get.isSome)).map
    (fun r => r.rank_to_get.bind guild.get_role)

/-- The quiz roles with the `None` entries dropped, as both
`reward_user` and `already_owns_higher_or_same_role` filter them. -/
def quizRolesResolved (cfg : List QuizData) (guild : Guild) : List Role :=
  (get_all_quiz_roles cfg guild).filterMap id

/-- Embedding of `LevelUp.already_owns_higher_or_same_role`
(gatekeeper.py:465-479): resolve the candidate reward role (a falsy or
unresolvable id yields `False`); then the member owns an equal-or-higher
rank iff some held role is a quiz role of position at least the
candidate's.  (The Python code sorts the quiz-role list before the
membership test; the sort does not affect membership and is omitted.) -/
def already_owns_higher_or_same_role (cfg : List QuizData) (guild : Guild)
    (rank_to_get_id : Option Nat) (member : Member) : Bool :=
  match rank_to_get_id.bind guild.get_role with
  | none => false
  | some role_to_get =>
    member.roles.any (fun role =>
      (quizRolesResolved cfg guild).any (fun r2 => r2.id == role.id)
        && role_to_get.position ≤ role.position)

/-! ## Effects and evaluation state -/

/-- Observable side effects of an evaluation: database statements, role
mutations, messages, entry into the composite-rank check, and uncaught
Python exceptions. -/
inductive Effect where
  | addPassedQuiz (guild_id user_id : Nat) (quiz_name : String)
  | addQuizAttempt (guild_id user_id : Nat) (quiz_name : String) (created_at : Nat)
  | removeRoles (role_ids : List Nat)
  | addRole (role_id : Nat)
  | announce (msg : String)
  | dmSend (user_id : Nat) (msg : String)
  | channelSend (msg : String)
  | compositeCheckStarted
  | pyError (msg : String)
deriving Repr, DecidableEq

/-- `Effect.addRole` discriminator. -/
def Effect.isAddRole : Effect → Bool
  | Effect.addRole _ => true
  | _ => false

/-- The mutable state an evaluation can touch: the database and the
evaluated member's role set. -/
structure EvalState where
  db : DB
  member : Member
deriving Repr, DecidableEq

/-- Result of `reward_user`: new state, effect trace, the role the
Python function returns (or `None`), and whether an uncaught exception
escaped. -/
structure RewardResult where
  state : EvalState
  effects : List Effect
  role : Option Role
  crashed : Bool
deriving Repr, DecidableEq

/-- Result of `check_if_combination_rank_earned`: new state, effect
trace, the composite ranks this invocation issued a reward for, and the
crash flag. -/
structure CombResult where
  state : EvalState
  effects : List Effect
  rewarded : List QuizData
  crashed : Bool
deriving Repr, DecidableEq

/-- Embedding of one `reward_user` invocation (gatekeeper.py:434-443)
as issued from inside the composite loop: insert the passed quiz
(idempotent); with a truthy reward-role id remove every quiz role and
add the new one (a dangling id crashes at `add_roles(None)` after the
removal has already happened).  With a falsy reward-role id the source
re-enters `check_if_combination_rank_earned` with the member's roles
and the earned set unchanged in every way that matters to its tests, so
every composite decision repeats and the mutual recursion never
terminates; that divergence (Python `RecursionError`) is modelled as
the crash outcome directly. -/
def reward_user_step (cfg : List QuizData) (guild : Guild)
    (st : EvalState) (quiz_data : QuizData) : RewardResult :=
  let st1 : EvalState := { st with db := addPassedQuizRow st.db guild.id st.member.id quiz_data.name }
  let eff0 := [Effect.addPassedQuiz guild.id st.member.id quiz_data.name]
  match quiz_data.rank_to_get with
  | some rid =>
    let roles := quizRolesResolved cfg guild
    let member1 : Member :=
      { st1.member with
        roles := st1.member.roles.filter (fun role => !(roles.any (fun r2 => r2.id == role.id))) }
    let st2 : EvalState := { st1 with member := member1 }
    match guild.get_role rid with
    | none =>
      { state := st2,
        effects := eff0 ++ [Effect.removeRoles (roles.map Role.id),
                            Effect.pyError "add_roles(None)"],
        role := none, crashed := true }
    | some r =>
      { state := { st2 with member := { member1 with roles := member1.roles ++ [r] } },
        effects := eff0 ++ [Effect.removeRoles (roles.map Role.id), Effect.addRole r.id],
        role := some r, crashed := false }
  | none =>
    { state := st1, effects := eff0 ++ [Effect.pyError "RecursionError"],
      role := none, crashed := true }

/-- The `for rank in combination_ranks` loop
(gatekeeper.py:451-458): an owned equal-or-higher role returns from the
whole method; otherwise, when every required quiz is in the earned list
fetched at entry, reward the composite and announce the returned role's
name (crashing on `None`), then continue with the rest of the list --
the loop has no break after a reward. -/
def comb_rank_loop (cfg : List QuizData) (guild : Guild) (mention : String)
    (earned : List String) (st : EvalState) : List QuizData → CombResult
  | [] => { state := st, effects := [], rewarded := [], crashed := false }
  | rank :: rest =>
    if already_owns_higher_or_same_role cfg guild rank.rank_to_get st.member then
      { state := st, effects := [], rewarded := [], crashed := false }
    else if rank.quizzes_required.all (fun q => earned.contains q) then
      let rr := reward_user_step cfg guild st rank
      if rr.crashed then
        { state := rr.state, effects := rr.effects, rewarded := [rank], crashed := true }
      else
        match rr.role with
        | none =>
          { state := rr.state,
            effects := rr.effects ++ [Effect.pyError "role_to_get.name"],
            rewarded := [rank], crashed := true }
        | some r =>
          let ann := Effect.announce (mention ++ " is now a " ++ r.name ++ "!")
          let c := comb_rank_loop cfg guild mention earned rr.state rest
          { state := c.state, effects := rr.effects ++ [ann] ++ c.effects,
            rewarded := rank :: c.rewarded, crashed := c.crashed }
    else comb_rank_loop cfg guild mention earned st rest

/-- Embedding of `LevelUp.check_if_combination_rank_earned`
(gatekeeper.py:445-458): collect the composite rank definitions, fetch
the user's passed quizzes once, and walk the composites in reverse
declaration order.  The `compositeCheckStarted` effect marks the
method's invocation. -/
def check_if_combination_rank_earned (cfg : List QuizData) (guild : Guild)
    (mention : String) (st : EvalState) : CombResult :=
  let combination_ranks := (cfg.filter (fun r => r.combination_rank)).reverse
  let earned := passedQuizNames st.db guild.id st.member.id
  let c := comb_rank_loop cfg guild mention earned st combination_ranks
  { c with effects := Effect.compositeCheckStarted :: c.effects }

/-- Embedding of `LevelUp.reward_user` (gatekeeper.py:434-443) as
called from `level_up_routine`: insert the passed quiz and either swap
the hierarchy roles (truthy reward-role id) or run the composite-rank
check (falsy reward-role id). -/
def reward_user (cfg : List QuizData) (guild : Guild) (mention : String)
    (st : EvalState) (quiz_data : QuizData) : RewardResult :=
  match quiz_data.rank_to_get with
  | some _ => reward_user_step cfg guild st quiz_data
  | none =>
    let st1 : EvalState :=
      { st with db := addPassedQuizRow st.db guild.id st.member.id quiz_data.name }
    let c := check_if_combination_rank_earned cfg guild mention st1
    { state := c.state,
      effects := [Effect.addPassedQuiz guild.id st.member.id quiz_data.name] ++ c.effects,
      role := none, crashed := c.crashed }

/-! ## The evaluation routine (`level_up_routine`, gatekeeper.py:492-551)

Modelled from the point at which the quiz report has been fetched and
matched to a rank definition and the reporting member resolved
(lines 511-516); the remainder (lines 518-551) is the part the claims
are about: verification, the equal-or-higher ownership skip, the
required-role gate, and the success / failed-attempt branches. -/

def level_up_eval (cfg : List QuizData) (guild : Guild) (mention : String)
    (st : EvalState) (quiz_data : QuizData) (quiz_result : QuizResult) (now : Nat) :
    EvalState × List Effect :=
  match verify_quiz_settings quiz_data quiz_result mention with
  | none => (st, [Effect.pyError "IndexError"])
  | some (success, quiz_message) =>
    if already_owns_higher_or_same_role cfg guild quiz_data.rank_to_get st.member then
      (st, [])
    else
      let success_path : EvalState × List Effect :=
        let rr := reward_user cfg guild mention st quiz_data
        if rr.crashed then (rr.state, rr.effects)
        else
          (rr.state,
           rr.effects ++
             [Effect.announce quiz_message,
              Effect.dmSend st.member.id
                ("Congratulations! You passed the " ++ quiz_data.name ++ " quiz!")])
      if success then
        match quiz_data.require_role with
        | some rrid =>
          match guild.get_role rrid with
          | none =>
            -- `role_to_have` is `None`; `None not in member.roles` is true and
            -- building the message dereferences `role_to_have.mention`.
            (st, [Effect.pyError "role_to_have.mention"])
          | some role_to_have =>
            if st.member.roles.any (fun r => r.id == role_to_have.id) then success_path
            else
              (st, [Effect.channelSend
                      (mention ++ " You need the " ++ role_to_have.name ++
                       " role to take this quiz.")])
        | none => success_path
      else
        if rank_has_cooldown cfg quiz_data.name then
          let st2 : EvalState :=
            { st with db := addQuizAttemptRow st.db guild.id st.member.id quiz_data.name now }
          let boundary := get_next_sunday_midnight_from now
          let base :=
            [Effect.addQuizAttempt guild.id st.member.id quiz_data.name now,
             Effect.channelSend (mention ++ " registered attempt for " ++ quiz_data.name ++ ".")]
          if boundary ≠ 0 then
            (st2, base ++
              [Effect.dmSend st.member.id
                 ("Your attempt at the " ++ quiz_data.name ++ " quiz was unsuccessful: " ++
                  quiz_message)])
          else (st2, base)
        else (st, [])

/-! ## Idle-thread sweep (`delete_inactive_threads`, gatekeeper.py:196-221) -/

/-- A thread as the sweep observes it: the cached last message's
creation time (`thread.last_message`), the recorded
`thread.last_message_id`, the outcome a `fetch_message` on that id would
have (`none` models `discord.NotFound`), and the thread's creation
time.  Times are integer seconds. -/
structure SweepThread where
  id : Nat
  last_message : Option Int
  last_message_id : Option Nat
  fetched_message : Option Int
  created_at : Int
deriving Repr, DecidableEq

/-- One iteration of the sweep loop body (gatekeeper.py:197-221) for a
single thread: `.ok (some id)` = thread deleted, `.ok none` = thread
retained, `.error` = an uncaught exception escaped the iteration. -/
def sweep_step (now : Int) (th : SweepThread) : Except String (Option Nat) :=
  match th.last_message with
  | some lm =>
    -- cached last message present; line 212's guard is false, line 218 decides
    if lm < now - 14 * 86400 then Except.ok (some th.id) else Except.ok none
  | none =>
    match th.last_message_id with
    | none => Except.ok none      -- line 203: `continue`, thread retained
    | some _ =>
      match th.fetched_message with
      | some lm =>
        -- fetch succeeded; falls through to line 218
        if lm < now - 14 * 86400 then Except.ok (some th.id) else Except.ok none
      | none =>
        -- fetch raised NotFound, `last_message = None` (line 210)
        if th.created_at < now - 14 * 86400 then
          Except.ok (some th.id)  -- line 212: old enough, deleted, `continue`
        else
          -- line 218 dereferences `last_message.created_at` on `None`
          Except.error "AttributeError"

/-- The whole sweep over a channel's thread list; an exception in one
iteration propagates out of the `for` loop and aborts the sweep. -/
def delete_inactive_threads (now : Int) : List SweepThread → Except String (List Nat)
  | [] => Except.ok []
  | th :: ths =>
    match sweep_step now th with
    | Except.error e => Except.error e
    | Except.ok d =>
      match delete_inactive_threads now ths with
      | Except.error e => Except.error e
      | Except.ok ds =>
        Except.ok (match d with | some i => i :: ds | none => ds)

/-! ## Workspace resolution (`DynamicQuizMenu.callback`, gatekeeper.py:279-299) -/

/-- A quiz thread as the workspace logic observes it. -/
structure WThread where
  id : Nat
  locked : Bool
  archived : Bool
deriving Repr, DecidableEq

/-- The environment of one workspace resolution for one user: the
persisted `user_threads` row, the guild's live thread cache
(`guild.get_thread`), the remote store behind `fetch_channel`
(absence models `discord.NotFound`), and the id a newly created thread
would receive. -/
structure WorkspaceEnv where
  mapping : Option Nat
  cached_threads : List WThread
  remote_threads : List WThread
  fresh_id : Nat
deriving Repr, DecidableEq

/-- Observable steps of a workspace resolution. -/
inductive WsEffect where
  | remoteFetch (tid : Nat)
  | createThread (tid : Nat)
  | upsertMapping (tid : Nat)
  | reactivate (tid : Nat)
deriving Repr, DecidableEq

/-- Result of a workspace resolution: the thread handed to the caller,
the observable steps, and the persisted mapping afterwards. -/
structure WorkspaceResult where
  thread : WThread
  effects : List WsEffect
  mapping : Option Nat
deriving Repr, DecidableEq

/-- Embedding of the thread-resolution part of `DynamicQuizMenu.callback`
(gatekeeper.py:279-299): read the persisted row; on a hit try the local
thread cache, then `fetch_channel`; when nothing resolves create a new
thread and upsert the mapping (`ADD_USER_THREAD`); finally a locked or
archived resolved thread is edited back to active. -/
def getOrCreateWorkspace (env : WorkspaceEnv) : WorkspaceResult :=
  let step1 : WThread × List WsEffect × Option Nat :=
    match env.mapping with
    | some tid =>
      match env.cached_threads.find? (fun t => t.id == tid) with
      | some t => (t, [], env.mapping)
      | none =>
        match env.remote_threads.find? (fun t => t.id == tid) with
        | some t => (t, [WsEffect.remoteFetch tid], env.mapping)
        | none =>
          ({ id := env.fresh_id, locked := false, archived := false },
           [WsEffect.remoteFetch tid, WsEffect.createThread env.fresh_id,
            WsEffect.upsertMapping env.fresh_id],
           some env.fresh_id)
    | none =>
      ({ id := env.fresh_id, locked := false, archived := false },
       [WsEffect.createThread env.fresh_id, WsEffect.upsertMapping env.fresh_id],
       some env.fresh_id)
  let t0 := step1.1
  if t0.locked || t0.archived then
    { thread := { t0 with locked := false, archived := false },
      effects := step1.2.1 ++ [WsEffect.reactivate t0.id],
      mapping := step1.2.2 }
  else
    { thread := t0, effects := step1.2.1, mapping := step1.2.2 }

/-- The resolution ends in the create-new-thread branch: the persisted
mapping is absent, or its id is in neither the cache nor the remote
store. -/
def createsNewWorkspace (env : WorkspaceEnv) : Bool :=
  match env.mapping with
  | none => true
  | some tid =>
    (env.cached_threads.find? (fun t => t.id == tid)).isNone
      && (env.remote_threads.find? (fun t => t.id == tid)).isNone

/-! ## Concrete scenario data

Shared concrete instances used to instantiate the theorems below
(spec §8 Scenario A and its variants, a composite-rank configuration,
and small workspace environments). -/

/-- Scenario A's rank definition: score limit 10, max missed 2, no
optional constraints, reward role 10, weekly cooldown. -/
def qdA : QuizData :=
  { name := "Silver", score_limit := 10, time_limit := 16000, font := none, font_size := none,
    max_missed := 2, foreground := none, effect := none, deck_range := none,
    rank_to_get := some 10, require_role := none, no_timeout := false,
    combination_rank := false, quizzes_required := [], deck_names := some ["sd"],
    command := some "k!quiz sd nd 10" }

/-- Scenario A's report: one participant, shuffle on, not loaded, one
non-multiple-choice deck without indices, full score 10 of 10. -/
def qrA : QuizResult :=
  { participants := [77],
    settings := { shuffle := true, fontColor := "white", effect := "antigravity",
                  scoreLimit := 10, answerTimeLimitInMs := 16000, font := "arial", fontSize := 40 },
    isLoaded := false,
    decks := [{ shortName := some "sd", mc := false, startIndex := none, endIndex := none }],
    questions := 10, scores := [10] }

/-- Scenario A's report with two participants. -/
def qrTwoParticipants : QuizResult := { qrA with participants := [77, 78] }

/-- Scenario A's report with no participant entry and shuffle off. -/
def qrZeroParticipants : QuizResult :=
  { qrA with participants := [], settings := { qrA.settings with shuffle := false } }

/-- Scenario A's reward role. -/
def silverRole : Role := { id := 10, name := "Silver", position := 5 }

/-- Guild holding Scenario A's reward role. -/
def guildA : Guild := { id := 1, roles := [silverRole] }

/-- Initial state: empty tables, member 77 with no roles. -/
def stA : EvalState := { db := ⟨[], [], []⟩, member := { id := 77, roles := [] } }

/-- A prerequisite quiz rank (no reward role of its own). -/
def quizP1 : QuizData :=
  { name := "P1", score_limit := 5, time_limit := 1, font := none, font_size := none,
    max_missed := 1, foreground := none, effect := none, deck_range := none,
    rank_to_get := none, require_role := none, no_timeout := false,
    combination_rank := false, quizzes_required := [], deck_names := some ["p1"],
    command := some "c1" }

/-- A second prerequisite quiz rank. -/
def quizP2 : QuizData := { quizP1 with name := "P2", deck_names := some ["p2"], command := some "c2" }

/-- A composite rank declared first, whose reward role sits higher in
the role hierarchy (position 8). -/
def compLow : QuizData :=
  { quizP1 with
      name := "CompLow", combination_rank := true, rank_to_get := some 20,
      quizzes_required := ["P1", "P2"], command := none }

/-- A composite rank declared second, whose reward role sits lower in
the role hierarchy (position 3). -/
def compHigh : QuizData :=
  { quizP1 with
      name := "CompHigh", combination_rank := true, rank_to_get := some 21,
      quizzes_required := ["P1", "P2"], command := none }

/-- A rank structure in which reverse declaration order does not agree
with role-position order. -/
def cfgComp : List QuizData := [quizP1, quizP2, compLow, compHigh]

/-- Guild holding both composite reward roles. -/
def guildComp : Guild := { id := 1, roles := [⟨20, "Low", 8⟩, ⟨21, "High", 3⟩] }

/-- Member 77 has passed both prerequisite quizzes and holds no role. -/
def stComp : EvalState :=
  { db := ⟨[], [(1, 77, "P1"), (1, 77, "P2")], []⟩, member := { id := 77, roles := [] } }

/-- A workspace environment whose persisted mapping resolves in the
local cache. -/
def wsEnvCacheHit : WorkspaceEnv :=
  { mapping := some 5, cached_threads := [⟨5, false, false⟩], remote_threads := [], fresh_id := 9 }

/-- A workspace environment with no persisted mapping. -/
def wsEnvFresh : WorkspaceEnv :=
  { mapping := none, cached_threads := [], remote_threads := [], fresh_id := 9 }

/-- A thread with no cached last message, a recorded last-message id
whose fetch returns NotFound, created at time 100. -/
def youngOrphanThread : SweepThread :=
  { id := 1, last_message := none, last_message_id := some 5, fetched_message := none,
    created_at := 100 }

/-! # Theorems -/

/-- Claim C2: for every last-attempt timestamp `t`,
`get_next_sunday_midnight_from t` is the next Sunday 00:00 UTC strictly
after `t` (strictly later than `t`, a Sunday midnight, and minimal among
Sunday midnights after `t`); when `t` itself falls on Sunday midnight
the boundary is exactly 7 days out, never 0; and the user is on
cooldown exactly while `now` is before that boundary. -/
theorem C2_cooldown_boundary (t now : Nat) :
    t < get_next_sunday_midnight_from t ∧
    isSundayMidnight (get_next_sunday_midnight_from t) ∧
    (∀ s : Nat, isSundayMidnight s → t < s → get_next_sunday_midnight_from t ≤ s) ∧
    (isSundayMidnight t → get_next_sunday_midnight_from t = t + 7 * 86400) ∧
    (is_on_cooldown true (some t) now = true ↔ now < get_next_sunday_midnight_from t) := by
  have hcool : is_on_cooldown true (some t) now =
      decide (now < get_next_sunday_midnight_from t) := rfl
  rw [hcool]
  simp only [is_on_cooldown, isSundayMidnight, get_next_sunday_midnight_from, weekday,
    decide_eq_true_eq]
  have hwlt : (t / 86400 + 3) % 7 < 7 := Nat.mod_lt _ (by norm_num)
  have hmod : (6 - (t / 86400 + 3) % 7) % 7 = 6 - (t / 86400 + 3) % 7 :=
    Nat.mod_eq_of_lt (by omega)
  rw [hmod]
  by_cases h : 6 - (t / 86400 + 3) % 7 = 0
  · rw [if_pos h]
    refine ⟨by omega, ⟨by omega, by omega⟩, ?_, ?_, trivial⟩
    · rintro s ⟨hs1, hs2⟩ ht
      omega
    · rintro ⟨ht1, ht2⟩
      omega
  · rw [if_neg h]
    refine ⟨by omega, ⟨by omega, by omega⟩, ?_, ?_, trivial⟩
    · rintro s ⟨hs1, hs2⟩ ht
      omega
    · rintro ⟨ht1, ht2⟩
      omega

/-- Witness for C2: the last attempt lands exactly on Sunday midnight
(1970-01-04 00:00 UTC, second 259200); the boundary is exactly 7 days
later, and one second before it the user is on cooldown. -/
theorem C2_cooldown_boundary_witness :
    get_next_sunday_midnight_from 259200 = 259200 + 7 * 86400 ∧
    is_on_cooldown true (some 259200) 863999 = true := by
  have h := C2_cooldown_boundary 259200 863999
  have hb := h.2.2.2.1 (by decide)
  exact ⟨hb, h.2.2.2.2.mpr (by rw [hb]; decide)⟩

/-- Claim C8 (divergence witness): the next-eligible time shown from
`get_next_attempt_time` (last attempt + 6 days) does not denote the
same instant as the cooldown boundary used by the cooldown checks: for
a last attempt at epoch second 0 (Thursday 1970-01-01 00:00 UTC) the
former is second 518400 (Wednesday) while the boundary is second
259200 (Sunday 1970-01-04 00:00 UTC). -/
theorem C8_next_attempt_time_mismatch :
    get_next_attempt_time_from 0 = 518400 ∧
    get_next_sunday_midnight_from 0 = 259200 ∧
    get_next_attempt_time_from 0 ≠ get_next_sunday_midnight_from 0 := by
  refine ⟨rfl, by decide, by decide⟩

/-- Claim C10: the idle-thread sweep is not total: a thread with no
cached last message, a recorded last-message id whose fetch raises
NotFound, and a creation time within the last 14 days makes
`delete_inactive_threads` dereference the absent message and abort with
an exception instead of retaining the thread and continuing. -/
theorem C10_sweep_not_total (now : Int) (th : SweepThread) (rest : List SweepThread)
    (mid : Nat) (h1 : th.last_message = none) (h2 : th.last_message_id = some mid)
    (h3 : th.fetched_message = none) (h4 : ¬ th.created_at < now - 14 * 86400) :
    delete_inactive_threads now (th :: rest) = Except.error "AttributeError" := by
  unfold delete_inactive_threads sweep_step
  rw [h1, h2, h3, if_neg h4]

/-- Witness for C10: at sweep time 1209600 the thread created at
time 100 (within the window) with a NotFound last message crashes the
sweep. -/
theorem C10_sweep_not_total_witness :
    delete_inactive_threads 1209600 [youngOrphanThread] = Except.error "AttributeError" :=
  C10_sweep_not_total 1209600 youngOrphanThread [] 5 rfl rfl rfl (by decide)

/-- Claim C9 counterexample: when the persisted mapping resolves in the
live cache, the resolution succeeds (the mapped thread is returned) yet
no mapping upsert is performed, contradicting "the mapping is upserted
on every successful resolution". -/
theorem C9_counterexample :
    (getOrCreateWorkspace wsEnvCacheHit).thread.id = 5 ∧
    (getOrCreateWorkspace wsEnvCacheHit).effects = [] := by decide

/-- Claim C9 as amended: `getOrCreateWorkspace` resolves in the order
persisted mapping → live cache → remote fetch → creation; the remote
fetch is attempted exactly when the persisted id misses the cache; the
mapping is upserted exactly when a new workspace is created (in
particular a stale persisted id self-heals through the creation path),
and in every path the final mapping points at the returned workspace;
an archived or locked workspace is reactivated before reuse, so the
returned workspace is neither locked nor archived. -/
theorem C9_workspace_resolution (env : WorkspaceEnv) :
    (getOrCreateWorkspace env).mapping = some (getOrCreateWorkspace env).thread.id ∧
    (getOrCreateWorkspace env).thread.locked = false ∧
    (getOrCreateWorkspace env).thread.archived = false ∧
    ((∃ tid, WsEffect.upsertMapping tid ∈ (getOrCreateWorkspace env).effects) ↔
      createsNewWorkspace env = true) ∧
    (∀ tid, WsEffect.remoteFetch tid ∈ (getOrCreateWorkspace env).effects ↔
      env.mapping = some tid ∧
        (env.cached_threads.find? (fun t => t.id == tid)).isNone = true) := by
  rcases hm : env.mapping with _ | tid0
  · simp only [getOrCreateWorkspace, createsNewWorkspace, hm]
    split_ifs with hlk <;>
      simp_all [List.mem_append]
  · rcases hc : env.cached_threads.find? (fun t => t.id == tid0) with _ | t
    · rcases hr : env.remote_threads.find? (fun t => t.id == tid0) with _ | t
      · simp only [getOrCreateWorkspace, createsNewWorkspace, hm, hc, hr]
        split_ifs with hlk <;>
          simp_all [List.mem_append] <;>
          aesop
      · have hid : t.id = tid0 := by
          have := List.find?_some hr
          simpa using this
        simp only [getOrCreateWorkspace, createsNewWorkspace, hm, hc, hr]
        split_ifs with hlk <;>
          simp_all [List.mem_append] <;>
          aesop
    · have hid : t.id = tid0 := by
        have := List.find?_some hc
        simpa using this
      have hmem : t ∈ env.cached_threads := List.mem_of_find?_eq_some hc
      simp only [getOrCreateWorkspace, createsNewWorkspace, hm, hc]
      split_ifs with hlk <;>
        simp_all [List.mem_append] <;>
        exact ⟨t, hmem, hid⟩

/-- Witness for C9's amended theorem: with no persisted mapping the
resolution creates thread 9 and upserts the mapping. -/
theorem C9_workspace_resolution_witness :
    ∃ tid, WsEffect.upsertMapping tid ∈ (getOrCreateWorkspace wsEnvFresh).effects :=
  ((C9_workspace_resolution wsEnvFresh).2.2.2.1).mpr (by decide)

/-- Helper: the sequential early-return verifier equals the
first-failure run of the spec's ordered check list. -/
theorem verify_eq_via_checks (qd : QuizData) (qr : QuizResult) (m : String) :
    verify_quiz_settings qd qr m = verify_via_checks qd qr m := by
  unfold verify_quiz_settings verify_via_checks
  simp only [verifier_checks, run_checks, vcheck_participants, vcheck_shuffle, vcheck_loaded,
    vcheck_mc, vcheck_index, vcheck_color, vcheck_effect, vcheck_score_limit, vcheck_time_limit,
    vcheck_font, vcheck_font_size, vcheck_missed, vcheck_exact_score]
  repeat' split
  all_goals
    first
    | rfl
    | simp_all [interp_check_result]

/-- Claim C1: the verifier evaluates its checks in the fixed spec order
(participants, shuffle, loaded, multiple-choice decks, index range,
color, effect, score limit, time limit, font, font size, missed bound,
exact score) and returns the reason of the first failing check
(short-circuit); and a report identical to a passing one except
`shuffle = false` fails with the shuffle-specific reason. -/
theorem C1_verifier_check_order :
    (∀ (qd : QuizData) (qr : QuizResult) (m : String),
        verify_quiz_settings qd qr m = verify_via_checks qd qr m) ∧
    (∀ (qd : QuizData) (qr : QuizResult) (m msg : String),
        verify_quiz_settings qd qr m = some (true, msg) →
        verify_quiz_settings qd (withShuffleOff qr) m = some (false, reason_shuffle)) := by
  constructor
  · exact verify_eq_via_checks
  · intro qd qr m msg hpass
    have h1 : ¬ qr.participants.length > 1 := by
      intro h
      unfold verify_quiz_settings at hpass
      simp [h] at hpass
    unfold verify_quiz_settings
    simp [withShuffleOff, h1]

/-- Witness for C1: Scenario A's passing report fails with the shuffle
reason once shuffle is turned off. -/
theorem C1_verifier_check_order_witness :
    verify_quiz_settings qdA (withShuffleOff qrA) "@user" = some (false, reason_shuffle) :=
  C1_verifier_check_order.2 qdA qrA "@user" (success_message "@user" qdA) (by decide)

/-- Claim C7 counterexample: a report with zero participants (count not
exactly one) does not fail with the multiple-participants reason -- the
participant check passes it and the verifier proceeds (here failing with
the shuffle reason instead). -/
theorem C7_counterexample :
    qrZeroParticipants.participants.length ≠ 1 ∧
    verify_quiz_settings qdA qrZeroParticipants "@user" = some (false, reason_shuffle) ∧
    reason_shuffle ≠ reason_participants := by decide

/-- Claim C7 as amended: the verifier's first check fails only for more
than one participant: any report with more than one participant fails
with the multiple-participants reason, and any report with zero or one
participant proceeds to the later checks (the verdict equals the run of
the check list with the participant check removed). -/
theorem C7_participant_check (qd : QuizData) (qr : QuizResult) (m : String) :
    (qr.participants.length > 1 →
      verify_quiz_settings qd qr m = some (false, reason_participants)) ∧
    (qr.participants.length ≤ 1 →
      verify_quiz_settings qd qr m =
        interp_check_result qd m (run_checks (verifier_checks.drop 1) qd qr)) := by
  constructor
  · intro h
    unfold verify_quiz_settings
    simp [h]
  · intro h
    have hng : ¬ qr.participants.length > 1 := by omega
    rw [verify_eq_via_checks qd qr m]
    unfold verify_via_checks
    congr 1
    simp [verifier_checks, run_checks, vcheck_participants, hng]

/-- Witness for C7's amended theorem: a two-participant report fails
with the multiple-participants reason. -/
theorem C7_participant_check_witness :
    verify_quiz_settings qdA qrTwoParticipants "@user" = some (false, reason_participants) :=
  (C7_participant_check qdA qrTwoParticipants "@user").1 (by decide)

/-- Helper: the passed-quiz insert touches neither the attempts table
nor the thread table. -/
theorem addPassedQuizRow_frame (db : DB) (g u : Nat) (q : String) :
    (addPassedQuizRow db g u q).quiz_attempts = db.quiz_attempts ∧
    (addPassedQuizRow db g u q).user_threads = db.user_threads := by
  unfold addPassedQuizRow
  split <;> exact ⟨rfl, rfl⟩

/-- Helper: one reward step never inserts an attempt row and leaves the
attempts and thread tables unchanged. -/
theorem reward_user_step_frame (cfg : List QuizData) (guild : Guild)
    (st : EvalState) (qd : QuizData) :
    (reward_user_step cfg guild st qd).state.db.quiz_attempts = st.db.quiz_attempts ∧
    (reward_user_step cfg guild st qd).state.db.user_threads = st.db.user_threads ∧
    ∀ g u q t, Effect.addQuizAttempt g u q t ∉ (reward_user_step cfg guild st qd).effects := by
  have hf := addPassedQuizRow_frame st.db guild.id st.member.id qd.name
  unfold reward_user_step
  rcases hr : qd.rank_to_get with _ | rid
  · exact ⟨hf.1, hf.2, by intro g u q t; simp⟩
  · rcases hget : guild.get_role rid with _ | role <;>
      simp only [hget] <;>
      exact ⟨hf.1, hf.2, by intro g u q t; simp⟩

/-- Helper: the composite loop never inserts an attempt row and leaves
the attempts and thread tables unchanged. -/
theorem comb_rank_loop_frame (cfg : List QuizData) (guild : Guild) (mention : String)
    (earned : List String) :
    ∀ (ranks : List QuizData) (st : EvalState),
      (comb_rank_loop cfg guild mention earned st ranks).state.db.quiz_attempts
          = st.db.quiz_attempts ∧
      (comb_rank_loop cfg guild mention earned st ranks).state.db.user_threads
          = st.db.user_threads ∧
      ∀ g u q t,
        Effect.addQuizAttempt g u q t ∉ (comb_rank_loop cfg guild mention earned st ranks).effects := by
  intro ranks
  induction ranks with
  | nil => intro st; simp [comb_rank_loop]
  | cons rank rest ih =>
    intro st
    unfold comb_rank_loop
    by_cases h1 : already_owns_higher_or_same_role cfg guild rank.rank_to_get st.member = true
    · simp [h1]
    · rw [if_neg h1]
      by_cases h2 : rank.quizzes_required.all (fun q => earned.contains q) = true
      · rw [if_pos h2]
        have hstep := reward_user_step_frame cfg guild st rank
        by_cases hcr : (reward_user_step cfg guild st rank).crashed = true
        · rw [if_pos hcr]
          exact ⟨hstep.1, hstep.2.1, hstep.2.2⟩
        · rw [if_neg hcr]
          rcases hrole : (reward_user_step cfg guild st rank).role with _ | r
          · dsimp only
            refine ⟨hstep.1, hstep.2.1, ?_⟩
            intro g u q t
            simp only [List.mem_append, List.mem_singleton]
            rintro (hin | hin)
            · exact hstep.2.2 g u q t hin
            · simp at hin
          · dsimp only
            have hih := ih (reward_user_step cfg guild st rank).state
            refine ⟨by rw [hih.1, hstep.1], by rw [hih.2.1, hstep.2.1], ?_⟩
            intro g u q t
            simp only [List.mem_append, List.mem_singleton]
            rintro ((hin | hin) | hin)
            · exact hstep.2.2 g u q t hin
            · simp at hin
            · exact hih.2.2 g u q t hin
      · rw [if_neg h2]
        exact ih st

/-- Helper: the composite check never inserts an attempt row and leaves
the attempts and thread tables unchanged; its first recorded effect is
its invocation marker. -/
theorem check_if_combination_frame (cfg : List QuizData) (guild : Guild) (mention : String)
    (st : EvalState) :
    (check_if_combination_rank_earned cfg guild mention st).state.db.quiz_attempts
        = st.db.quiz_attempts ∧
    (check_if_combination_rank_earned cfg guild mention st).state.db.user_threads
        = st.db.user_threads ∧
    (∀ g u q t,
      Effect.addQuizAttempt g u q t ∉ (check_if_combination_rank_earned cfg guild mention st).effects) ∧
    Effect.compositeCheckStarted ∈ (check_if_combination_rank_earned cfg guild mention st).effects := by
  have h := comb_rank_loop_frame cfg guild mention
    (passedQuizNames st.db guild.id st.member.id)
    ((cfg.filter (fun r => r.combination_rank)).reverse) st
  unfold check_if_combination_rank_earned
  refine ⟨h.1, h.2.1, ?_, by simp⟩
  intro g u q t
  simp only [List.mem_cons]
  rintro (hin | hin)
  · simp at hin
  · exact h.2.2 g u q t hin

/-- Helper: `reward_user` never inserts an attempt row and leaves the
attempts and thread tables unchanged. -/
theorem reward_user_frame (cfg : List QuizData) (guild : Guild) (mention : String)
    (st : EvalState) (qd : QuizData) :
    (reward_user cfg guild mention st qd).state.db.quiz_attempts = st.db.quiz_attempts ∧
    (reward_user cfg guild mention st qd).state.db.user_threads = st.db.user_threads ∧
    ∀ g u q t, Effect.addQuizAttempt g u q t ∉ (reward_user cfg guild mention st qd).effects := by
  unfold reward_user
  rcases hr : qd.rank_to_get with _ | rid
  · have hf := addPassedQuizRow_frame st.db guild.id st.member.id qd.name
    have hc := check_if_combination_frame cfg guild mention
      { st with db := addPassedQuizRow st.db guild.id st.member.id qd.name }
    refine ⟨by rw [hc.1]; exact hf.1, by rw [hc.2.1]; exact hf.2, ?_⟩
    intro g u q t
    simp only [List.cons_append, List.nil_append, List.mem_cons]
    rintro (hin | hin)
    · simp at hin
    · exact hc.2.2.1 g u q t hin
  · have := reward_user_step_frame cfg guild st qd
    exact this

/-- Claim C3 counterexample: a successful evaluation of a report whose
rank carries a reward role performs the role swap and finishes without
ever entering the composite-rank check. -/
theorem C3_counterexample :
    (∃ ms, verify_quiz_settings qdA qrA "@user" = some (true, ms)) ∧
    qdA.rank_to_get ≠ none ∧
    Effect.compositeCheckStarted ∉ (level_up_eval [qdA] guildA "@user" stA qdA qrA 1000).2 := by
  exact ⟨⟨success_message "@user" qdA, by decide⟩, by decide, by decide⟩

/-- Claim C3 as amended: after the idempotent PassedQuiz insert,
`reward_user` attempts the composite-rank unlock exactly when the
passed rank carries no reward role; when the rank carries a reward role
the hierarchy swap happens and the composite check is not entered. -/
theorem C3_composite_check_only_without_role (cfg : List QuizData) (guild : Guild)
    (mention : String) (st : EvalState) (qd : QuizData) :
    Effect.compositeCheckStarted ∈ (reward_user cfg guild mention st qd).effects ↔
      qd.rank_to_get = none := by
  unfold reward_user
  rcases hr : qd.rank_to_get with _ | rid
  · have hc := check_if_combination_frame cfg guild mention
      { st with db := addPassedQuizRow st.db guild.id st.member.id qd.name }
    exact iff_of_true (List.mem_append_right _ hc.2.2.2) rfl
  · unfold reward_user_step
    rw [hr]
    rcases hget : guild.get_role rid with _ | role <;> simp [hget]

/-- Witness for C3's amended theorem: rewarding a rank with no reward
role enters the composite check. -/
theorem C3_composite_check_only_without_role_witness :
    Effect.compositeCheckStarted ∈
      (reward_user cfgComp guildComp "@user" stComp quizP1).effects :=
  (C3_composite_check_only_without_role cfgComp guildComp "@user" stComp quizP1).mpr rfl

/-- Helper: every composite the loop rewards satisfies all its
prerequisites against the earned list fetched at entry. -/
theorem comb_rank_loop_rewarded_prereqs (cfg : List QuizData) (guild : Guild)
    (mention : String) (earned : List String) :
    ∀ (ranks : List QuizData) (st : EvalState) (r : QuizData),
      r ∈ (comb_rank_loop cfg guild mention earned st ranks).rewarded →
      r.quizzes_required.all (fun q => earned.contains q) = true := by
  intro ranks
  induction ranks with
  | nil => intro st r h; simp [comb_rank_loop] at h
  | cons rank rest ih =>
    intro st r h
    unfold comb_rank_loop at h
    by_cases h1 : already_owns_higher_or_same_role cfg guild rank.rank_to_get st.member = true
    · rw [if_pos h1] at h
      simp at h
    · rw [if_neg h1] at h
      by_cases h2 : rank.quizzes_required.all (fun q => earned.contains q) = true
      · rw [if_pos h2] at h
        by_cases hcr : (reward_user_step cfg guild st rank).crashed = true
        · rw [if_pos hcr] at h
          simp at h
          subst h
          exact h2
        · rw [if_neg hcr] at h
          rcases hrole : (reward_user_step cfg guild st rank).role with _ | ro <;>
            rw [hrole] at h <;> dsimp only at h
          · simp at h
            subst h
            exact h2
          · rcases List.mem_cons.mp h with h | h
            · subst h
              exact h2
            · exact ih _ r h
      · rw [if_neg h2] at h
        exact ih st r h

/-- Claim C4 counterexample: with composite definitions whose reverse
declaration order disagrees with role-position order (`cfgComp`), one
single composite-check pass rewards two composites: two role grants are
issued and both composites appear in the rewarded list. -/
theorem C4_counterexample :
    ((check_if_combination_rank_earned cfgComp guildComp "@user" stComp).effects.countP
        Effect.isAddRole) = 2 ∧
    ((check_if_combination_rank_earned cfgComp guildComp "@user" stComp).rewarded.map
        QuizData.name) = ["CompHigh", "CompLow"] := by decide

/-- Claim C4 as amended: the composite check walks the composite rank
definitions in reverse declaration order; a composite it examines while
the user already holds an equal-or-higher rank role stops the whole
pass with no reward and no state change; a composite is rewarded only
when every quiz name in its prerequisite list is in the passed-quiz set
fetched at entry (so removing any one prerequisite refuses that
composite); but after a reward the loop continues instead of stopping,
so a later composite whose reward role outranks the one just granted
can be rewarded in the same pass. -/
theorem C4_composite_unlock (cfg : List QuizData) (guild : Guild) (mention : String)
    (st : EvalState) :
    (∀ r ∈ (check_if_combination_rank_earned cfg guild mention st).rewarded,
        r.quizzes_required.all
          (fun q => (passedQuizNames st.db guild.id st.member.id).contains q) = true) ∧
    (∀ rank rest, (cfg.filter (fun r => r.combination_rank)).reverse = rank :: rest →
        already_owns_higher_or_same_role cfg guild rank.rank_to_get st.member = true →
        check_if_combination_rank_earned cfg guild mention st =
          { state := st, effects := [Effect.compositeCheckStarted],
            rewarded := [], crashed := false }) := by
  constructor
  · intro r hr
    exact comb_rank_loop_rewarded_prereqs cfg guild mention _ _ st r hr
  · intro rank rest hrev howns
    unfold check_if_combination_rank_earned comb_rank_loop
    rw [hrev]
    dsimp only
    rw [if_pos howns]

/-- Witness for C4's amended theorem: the composite rewarded first in
the `cfgComp` pass indeed has all its prerequisites in the passed set. -/
theorem C4_composite_unlock_witness :
    compHigh.quizzes_required.all
      (fun q => (passedQuizNames stComp.db guildComp.id stComp.member.id).contains q) = true :=
  (C4_composite_unlock cfgComp guildComp "@user" stComp).1 compHigh (by decide)

/-- Helper: a rank definition in the structure whose reward-role id
resolves contributes its role to the resolved quiz-role list. -/
theorem mem_quizRolesResolved (cfg : List QuizData) (guild : Guild) (qd : QuizData)
    (rid : Nat) (r : Role) (h1 : qd ∈ cfg) (h2 : qd.rank_to_get = some rid)
    (h3 : guild.get_role rid = some r) : r ∈ quizRolesResolved cfg guild := by
  unfold quizRolesResolved get_all_quiz_roles
  rw [List.mem_filterMap]
  refine ⟨some r, ?_, rfl⟩
  rw [List.mem_map]
  refine ⟨qd, ?_, by rw [h2]; simpa using h3⟩
  rw [List.mem_filter]
  exact ⟨h1, by rw [h2]; rfl⟩

/-- Helper: a member holding the resolved reward role of a configured
rank passes the equal-or-higher ownership test for that rank. -/
theorem already_owns_of_holds_reward_role (cfg : List QuizData) (guild : Guild)
    (qd : QuizData) (rid : Nat) (r : Role) (mem2 : Member)
    (h1 : qd ∈ cfg) (h2 : qd.rank_to_get = some rid) (h3 : guild.get_role rid = some r)
    (hmem2 : r ∈ mem2.roles) :
    already_owns_higher_or_same_role cfg guild qd.rank_to_get mem2 = true := by
  have hR := mem_quizRolesResolved cfg guild qd rid r h1 h2 h3
  unfold already_owns_higher_or_same_role
  rw [h2]
  simp only [Option.some_bind, h3]
  refine List.any_eq_true.mpr ⟨r, hmem2, ?_⟩
  simp only [Bool.and_eq_true]
  exact ⟨List.any_eq_true.mpr ⟨r, hR, by simp⟩, by simp⟩

/-- Claim C5: when the user already holds a quiz-hierarchy role of
standing equal to or higher than the rank a report would reward, the
evaluation ends with no role mutation, no message, and no persistence
(`Skipped-AlreadyHeld`); in particular any member holding the rank's
own resolved reward role is skipped, and evaluating the same successful
report twice never grants the reward twice and never downgrades: the
first evaluation leaves the member holding the reward role, so the
second evaluation of the identical report is a complete no-op. -/
theorem C5_skip_already_held (cfg : List QuizData) (guild : Guild) (mention : String)
    (st : EvalState) (qd : QuizData) (qr : QuizResult) (now now2 : Nat)
    (rid : Nat) (r : Role) (msg : String)
    (hmem : qd ∈ cfg) (hrid : qd.rank_to_get = some rid) (hrole : guild.get_role rid = some r) :
    (already_owns_higher_or_same_role cfg guild qd.rank_to_get st.member = true →
      ∀ success qmsg, verify_quiz_settings qd qr mention = some (success, qmsg) →
      level_up_eval cfg guild mention st qd qr now = (st, [])) ∧
    (∀ st2 : EvalState, r ∈ st2.member.roles →
      ∀ success qmsg, verify_quiz_settings qd qr mention = some (success, qmsg) →
      level_up_eval cfg guild mention st2 qd qr now2 = (st2, [])) ∧
    (verify_quiz_settings qd qr mention = some (true, msg) →
      already_owns_higher_or_same_role cfg guild qd.rank_to_get st.member = false →
      qd.require_role = none →
      r ∈ (level_up_eval cfg guild mention st qd qr now).1.member.roles ∧
      level_up_eval cfg guild mention
          (level_up_eval cfg guild mention st qd qr now).1 qd qr now2 =
        ((level_up_eval cfg guild mention st qd qr now).1, [])) := by
  have hskip : ∀ (stx : EvalState) (nowx : Nat),
      already_owns_higher_or_same_role cfg guild qd.rank_to_get stx.member = true →
      ∀ success qmsg, verify_quiz_settings qd qr mention = some (success, qmsg) →
      level_up_eval cfg guild mention stx qd qr nowx = (stx, []) := by
    intro stx nowx howns success qmsg hv
    unfold level_up_eval
    rw [hv]
    dsimp only
    rw [if_pos howns]
  have hheld : ∀ (stx : EvalState) (nowx : Nat), r ∈ stx.member.roles →
      ∀ success qmsg, verify_quiz_settings qd qr mention = some (success, qmsg) →
      level_up_eval cfg guild mention stx qd qr nowx = (stx, []) := by
    intro stx nowx hin success qmsg hv
    exact hskip stx nowx
      (already_owns_of_holds_reward_role cfg guild qd rid r stx.member hmem hrid hrole hin)
      success qmsg hv
  refine ⟨fun h success qmsg hv => hskip st now h success qmsg hv,
          fun st2 hin success qmsg hv => hheld st2 now2 hin success qmsg hv, ?_⟩
  intro hv hno hreq
  have hstep : reward_user cfg guild mention st qd = reward_user_step cfg guild st qd := by
    unfold reward_user
    rw [hrid]
  have hrec : reward_user_step cfg guild st qd =
      { state := { db := addPassedQuizRow st.db guild.id st.member.id qd.name,
                   member := { id := st.member.id,
                               roles := (st.member.roles.filter (fun role =>
                                   !((quizRolesResolved cfg guild).any
                                       (fun r2 => r2.id == role.id)))) ++ [r] } },
        effects := [Effect.addPassedQuiz guild.id st.member.id qd.name,
                    Effect.removeRoles ((quizRolesResolved cfg guild).map Role.id),
                    Effect.addRole r.id],
        role := some r, crashed := false } := by
    unfold reward_user_step
    rw [hrid]
    dsimp only
    rw [hrole]
    rfl
  have hcr : (reward_user cfg guild mention st qd).crashed = false := by
    rw [hstep, hrec]
  have hfst1 : (level_up_eval cfg guild mention st qd qr now).1 =
      (reward_user cfg guild mention st qd).state := by
    unfold level_up_eval
    rw [hv]
    dsimp only
    rw [if_neg (by rw [hno]; simp), hreq]
    dsimp only
    simp only [hcr, Bool.false_eq_true, if_false, if_true]
  have hin : r ∈ (level_up_eval cfg guild mention st qd qr now).1.member.roles := by
    rw [hfst1, hstep, hrec]
    exact List.mem_append_right _ (List.mem_singleton_self r)
  exact ⟨hin, hheld _ now2 hin true msg hv⟩

/-- Witness for C5: after the Scenario A report grants the Silver role,
re-evaluating the identical report is a complete no-op. -/
theorem C5_skip_already_held_witness :
    silverRole ∈ (level_up_eval [qdA] guildA "@user" stA qdA qrA 1000).1.member.roles ∧
    level_up_eval [qdA] guildA "@user"
        (level_up_eval [qdA] guildA "@user" stA qdA qrA 1000).1 qdA qrA 2000 =
      ((level_up_eval [qdA] guildA "@user" stA qdA qrA 1000).1, []) :=
  (C5_skip_already_held [qdA] guildA "@user" stA qdA qrA 1000 2000 10 silverRole
      (success_message "@user" qdA) (by decide) rfl (by decide)).2.2 (by decide) (by decide) rfl

/-- Helper: a Sunday-midnight boundary is never the zero timestamp. -/
theorem get_next_sunday_midnight_ne_zero (t : Nat) : get_next_sunday_midnight_from t ≠ 0 := by
  unfold get_next_sunday_midnight_from weekday
  dsimp only
  split_ifs with h <;> omega

/-- Claim C6: a `quiz_attempts` row is inserted only on an evaluation
that fails verification with a cooldown-bearing rank; a
`passed_quizzes` row is inserted only on an evaluation that passes
verification; the `user_threads` table is never touched by an
evaluation; a failing evaluation leaves `passed_quizzes` unchanged and
a passing evaluation leaves `quiz_attempts` unchanged. -/
theorem C6_persistence_discipline (cfg : List QuizData) (guild : Guild) (mention : String)
    (st : EvalState) (qd : QuizData) (qr : QuizResult) (now : Nat) :
    (∀ g u q t,
        Effect.addQuizAttempt g u q t ∈ (level_up_eval cfg guild mention st qd qr now).2 →
        (∃ ms, verify_quiz_settings qd qr mention = some (false, ms)) ∧
          rank_has_cooldown cfg qd.name = true) ∧
    (∀ g u q,
        Effect.addPassedQuiz g u q ∈ (level_up_eval cfg guild mention st qd qr now).2 →
        ∃ ms, verify_quiz_settings qd qr mention = some (true, ms)) ∧
    (level_up_eval cfg guild mention st qd qr now).1.db.user_threads = st.db.user_threads ∧
    (∀ ms, verify_quiz_settings qd qr mention = some (false, ms) →
        (level_up_eval cfg guild mention st qd qr now).1.db.passed_quizzes
          = st.db.passed_quizzes) ∧
    (∀ ms, verify_quiz_settings qd qr mention = some (true, ms) →
        (level_up_eval cfg guild mention st qd qr now).1.db.quiz_attempts
          = st.db.quiz_attempts) := by
  rcases hv : verify_quiz_settings qd qr mention with _ | ⟨success, qmsg⟩
  · have hE : level_up_eval cfg guild mention st qd qr now =
        (st, [Effect.pyError "IndexError"]) := by
      unfold level_up_eval
      rw [hv]
    rw [hE]
    exact ⟨fun g u q t h => by simp at h, fun g u q h => by simp at h, rfl,
      fun ms hms => rfl, fun ms hms => rfl⟩
  · by_cases howns : already_owns_higher_or_same_role cfg guild qd.rank_to_get st.member = true
    · have hE : level_up_eval cfg guild mention st qd qr now = (st, []) := by
        unfold level_up_eval
        rw [hv]
        dsimp only
        rw [if_pos howns]
      rw [hE]
      exact ⟨fun g u q t h => by simp at h, fun g u q h => by simp at h, rfl,
        fun ms hms => rfl, fun ms hms => rfl⟩
    · cases success with
      | true =>
        have hfr := reward_user_frame cfg guild mention st qd
        have hsuccpath : ∀ rest : EvalState × List Effect,
            (rest = ((reward_user cfg guild mention st qd).state,
                (reward_user cfg guild mention st qd).effects) ∨
             rest = ((reward_user cfg guild mention st qd).state,
                (reward_user cfg guild mention st qd).effects ++
                  [Effect.announce qmsg,
                   Effect.dmSend st.member.id
                     ("Congratulations! You passed the " ++ qd.name ++ " quiz!")])) →
            (∀ g u q t, Effect.addQuizAttempt g u q t ∈ rest.2 →
              (∃ ms, (some (true, qmsg) : Option (Bool × String)) = some (false, ms)) ∧
                rank_has_cooldown cfg qd.name = true) ∧
            (∀ g u q, Effect.addPassedQuiz g u q ∈ rest.2 →
              ∃ ms, (some (true, qmsg) : Option (Bool × String)) = some (true, ms)) ∧
            rest.1.db.user_threads = st.db.user_threads ∧
            (∀ ms, (some (true, qmsg) : Option (Bool × String)) = some (false, ms) →
              rest.1.db.passed_quizzes = st.db.passed_quizzes) ∧
            (∀ ms, (some (true, qmsg) : Option (Bool × String)) = some (true, ms) →
              rest.1.db.quiz_attempts = st.db.quiz_attempts) := by
          rintro rest (rfl | rfl)
          · refine ⟨fun g u q t h => (hfr.2.2 g u q t h).elim,
              fun g u q h => ⟨qmsg, rfl⟩, hfr.2.1, ?_, fun ms hms => hfr.1⟩
            intro ms hms
            simp at hms
          · refine ⟨?_, fun g u q h => ⟨qmsg, rfl⟩, hfr.2.1, ?_, fun ms hms => hfr.1⟩
            · intro g u q t h
              rcases List.mem_append.mp h with h | h
              · exact (hfr.2.2 g u q t h).elim
              · simp at h
            · intro ms hms
              simp at hms
        rcases hreq : qd.require_role with _ | rrid
        · by_cases hcr : (reward_user cfg guild mention st qd).crashed = true
          · have hE : level_up_eval cfg guild mention st qd qr now =
                ((reward_user cfg guild mention st qd).state,
                 (reward_user cfg guild mention st qd).effects) := by
              unfold level_up_eval
              rw [hv]
              dsimp only
              rw [if_neg howns, hreq]
              dsimp only
              simp only [hcr, if_true]
            rw [hE]
            exact hsuccpath _ (Or.inl rfl)
          · have hE : level_up_eval cfg guild mention st qd qr now =
                ((reward_user cfg guild mention st qd).state,
                 (reward_user cfg guild mention st qd).effects ++
                   [Effect.announce qmsg,
                    Effect.dmSend st.member.id
                      ("Congratulations! You passed the " ++ qd.name ++ " quiz!")]) := by
              unfold level_up_eval
              rw [hv]
              dsimp only
              rw [if_neg howns, hreq]
              dsimp only
              simp only [hcr, Bool.false_eq_true, if_false, if_true]
            rw [hE]
            exact hsuccpath _ (Or.inr rfl)
        · rcases hget : guild.get_role rrid with _ | role_to_have
          · have hE : level_up_eval cfg guild mention st qd qr now =
                (st, [Effect.pyError "role_to_have.mention"]) := by
              unfold level_up_eval
              rw [hv]
              dsimp only
              rw [if_neg howns, hreq]
              dsimp only
              rw [hget]
              exact rfl
            rw [hE]
            refine ⟨fun g u q t h => by simp at h, fun g u q h => ⟨qmsg, rfl⟩, rfl,
              fun ms hms => rfl, fun ms hms => rfl⟩
          · by_cases hin : st.member.roles.any (fun x => x.id == role_to_have.id) = true
            · by_cases hcr : (reward_user cfg guild mention st qd).crashed = true
              · have hE : level_up_eval cfg guild mention st qd qr now =
                    ((reward_user cfg guild mention st qd).state,
                     (reward_user cfg guild mention st qd).effects) := by
                  unfold level_up_eval
                  rw [hv]
                  dsimp only
                  rw [if_neg howns, hreq]
                  dsimp only
                  rw [hget]
                  dsimp only
                  rw [if_pos hin]
                  simp only [hcr, if_true]
                rw [hE]
                exact hsuccpath _ (Or.inl rfl)
              · have hE : level_up_eval cfg guild mention st qd qr now =
                    ((reward_user cfg guild mention st qd).state,
                     (reward_user cfg guild mention st qd).effects ++
                       [Effect.announce qmsg,
                        Effect.dmSend st.member.id
                          ("Congratulations! You passed the " ++ qd.name ++ " quiz!")]) := by
                  unfold level_up_eval
                  rw [hv]
                  dsimp only
                  rw [if_neg howns, hreq]
                  dsimp only
                  rw [hget]
                  dsimp only
                  rw [if_pos hin]
                  simp only [hcr, Bool.false_eq_true, if_false, if_true]
                rw [hE]
                exact hsuccpath _ (Or.inr rfl)
            · have hE : level_up_eval cfg guild mention st qd qr now =
                  (st, [Effect.channelSend
                          (mention ++ " You need the " ++ role_to_have.name ++
                           " role to take this quiz.")]) := by
                unfold level_up_eval
                rw [hv]
                dsimp only
                rw [if_neg howns, hreq]
                dsimp only
                rw [hget]
                dsimp only
                rw [if_neg hin]
                simp only [if_true]
              rw [hE]
              refine ⟨fun g u q t h => by simp at h, fun g u q h => ⟨qmsg, rfl⟩, rfl,
                fun ms hms => rfl, fun ms hms => rfl⟩
      | false =>
        by_cases hcd : rank_has_cooldown cfg qd.name = true
        · have hE : level_up_eval cfg guild mention st qd qr now =
              ({ st with db := addQuizAttemptRow st.db guild.id st.member.id qd.name now },
               [Effect.addQuizAttempt guild.id st.member.id qd.name now,
                Effect.channelSend (mention ++ " registered attempt for " ++ qd.name ++ "."),
                Effect.dmSend st.member.id
                  ("Your attempt at the " ++ qd.name ++ " quiz was unsuccessful: " ++ qmsg)]) := by
            unfold level_up_eval
            rw [hv]
            dsimp only
            rw [if_neg howns]
            simp only [Bool.false_eq_true, if_false]
            rw [if_pos hcd, if_pos (get_next_sunday_midnight_ne_zero now)]
            exact rfl
          rw [hE]
          refine ⟨fun g u q t h => ⟨⟨qmsg, rfl⟩, hcd⟩, fun g u q h => by simp at h,
            by simp [addQuizAttemptRow], fun ms hms => by simp [addQuizAttemptRow], ?_⟩
          intro ms hms
          simp at hms
        · have hE : level_up_eval cfg guild mention st qd qr now = (st, []) := by
            unfold level_up_eval
            rw [hv]
            dsimp only
            rw [if_neg howns]
            simp only [Bool.false_eq_true, if_false]
            rw [if_neg hcd]
          rw [hE]
          exact ⟨fun g u q t h => by simp at h, fun g u q h => by simp at h, rfl,
            fun ms hms => rfl, fun ms hms => rfl⟩

/-- Witness for C6: the Scenario A report with shuffle off charges a
cooldown attempt, so the attempt-row insert's preconditions hold: the
verification failed and the Silver rank requires a cooldown. -/
theorem C6_persistence_discipline_witness :
    (∃ ms, verify_quiz_settings qdA (withShuffleOff qrA) "@user" = some (false, ms)) ∧
    rank_has_cooldown [qdA] qdA.name = true :=
  (C6_persistence_discipline [qdA] guildA "@user" stA qdA (withShuffleOff qrA) 1000).1
    1 77 "Silver" 1000 (by decide)

end Gatekeeper
